import Mathlib

/-!
Shallow embedding of `evals/evaluation/rag_eval/examples/eval_crud.py`
(the `CRUD_Evaluator` subclass and the `main` driver), together with proofs
about its task dispatch, response post-processing and run structure.

Python conventions are modelled as follows: a `dict` is an association list
`List (String × v)` read through `List.lookup`; code that can raise returns
`Except PyError _`; the driver `main` is modelled as a function from its
inputs to the trace of effectful steps it performs plus the exception, if
any, that terminated it.
-/

/-- The Python exceptions the script can raise: `NotImplementedError` for an
unknown task, `KeyError` for a missing dictionary key, `FileNotFoundError`
for a missing dataset file. Each carries its message or offending key. -/
inductive PyError where
  | notImplementedError (msg : String)
  | keyError (key : String)
  | fileNotFoundError (msg : String)
deriving DecidableEq, Repr

/-- The fixed tail of the unknown-task message, naming the four tasks. -/
def supportTail : String :=
  ", only support summarization, question_answering, continuation and hallucinated_modified."

/-- The message of the `NotImplementedError` raised by every unknown-task
branch of `eval_crud.py` (the f-string is identical at all four raise
sites: the three extractors, `get_template`, and the dataset selection in
`main`). -/
def unknownTaskMsg (task : String) : String :=
  "Unknown task " ++ task ++ supportTail

/-- Python `data[key]` on a dict: the value when the key is present,
`KeyError` otherwise. -/
def dictGet {v : Type} (data : List (String × v)) (key : String) : Except PyError v :=
  match data.lookup key with
  | some x => Except.ok x
  | none => Except.error (PyError.keyError key)

/-- A dataset record: a JSON object, modelled as an association list of
string fields. -/
abbrev Record := List (String × String)

/-- `CRUD_Evaluator.get_ground_truth_text` (eval_crud.py lines 16-30). -/
def get_ground_truth_text (task : String) (data : Record) : Except PyError String :=
  if task = "summarization" then dictGet data "summary"
  else if task = "question_answering" then dictGet data "answers"
  else if task = "continuation" then dictGet data "continuing"
  else if task = "hallucinated_modified" then dictGet data "hallucinatedMod"
  else Except.error (PyError.notImplementedError (unknownTaskMsg task))

/-- `CRUD_Evaluator.get_query` (eval_crud.py lines 32-46). -/
def get_query (task : String) (data : Record) : Except PyError String :=
  if task = "summarization" then dictGet data "text"
  else if task = "question_answering" then dictGet data "questions"
  else if task = "continuation" then dictGet data "beginning"
  else if task = "hallucinated_modified" then dictGet data "newsBeginning"
  else Except.error (PyError.notImplementedError (unknownTaskMsg task))

/-- `CRUD_Evaluator.get_document` (eval_crud.py lines 48-62). -/
def get_document (task : String) (data : Record) : Except PyError String :=
  if task = "summarization" then dictGet data "text"
  else if task = "question_answering" then dictGet data "news1"
  else if task = "continuation" then dictGet data "beginning"
  else if task = "hallucinated_modified" then dictGet data "newsBeginning"
  else Except.error (PyError.notImplementedError (unknownTaskMsg task))

/-- Modelled from the spec: the prompt templates returned by `CRUDTemplate`
(module `evals.evaluation.rag_eval.template`, not under `src/`) are
immutable string patterns with named slots for query and document; their
exact text is an external lookup table keyed by task, so each getter is
modelled as a distinct abstract template value. -/
inductive PromptTemplate where
  | summarizationTemplate
  | questionAnsweringTemplate
  | continuationTemplate
deriving DecidableEq, Repr

namespace CRUDTemplate

/-- Modelled from the spec: the summarization prompt template. -/
def get_summarization_template : PromptTemplate :=
  PromptTemplate.summarizationTemplate

/-- Modelled from the spec: the question-answering prompt template. -/
def get_question_answering_template : PromptTemplate :=
  PromptTemplate.questionAnsweringTemplate

/-- Modelled from the spec: the continuation prompt template. -/
def get_continuation_template : PromptTemplate :=
  PromptTemplate.continuationTemplate

end CRUDTemplate

/-- `CRUD_Evaluator.get_template` (eval_crud.py lines 64-76): defined for
three tasks only; `hallucinated_modified` falls through to the error
branch. -/
def get_template (task : String) : Except PyError PromptTemplate :=
  if task = "summarization" then Except.ok CRUDTemplate.get_summarization_template
  else if task = "question_answering" then Except.ok CRUDTemplate.get_question_answering_template
  else if task = "continuation" then Except.ok CRUDTemplate.get_continuation_template
  else Except.error (PyError.notImplementedError (unknownTaskMsg task))

/-- Python `s.split(sep)` on lists of characters, fuel-indexed so that the
recursion is structural (each step consumes one fuel unit and at least one
character, so fuel `s.length` is always enough). At each position the
separator is matched greedily, left to right, non-overlapping; segments
between matches are collected, so the result is always non-empty. -/
def pySplitF (sep : List Char) : Nat → List Char → List (List Char)
  | _, [] => [[]]
  | 0, s => [s]
  | n + 1, c :: rest =>
    if sep.isPrefixOf (c :: rest) then
      [] :: pySplitF sep n (List.drop (sep.length - 1) rest)
    else
      match pySplitF sep n rest with
      | [] => [[c]]
      | seg :: segs => (c :: seg) :: segs

/-- Python `s.split(sep)` for a non-empty separator. -/
def pySplit (sep s : List Char) : List (List Char) :=
  pySplitF sep s.length s

/-- Python `s.strip()`: drop whitespace from both ends. -/
def pyStrip (s : List Char) : List Char :=
  ((s.dropWhile Char.isWhitespace).reverse.dropWhile Char.isWhitespace).reverse

/-- `true` iff `sep` occurs as a contiguous substring of `s` (the Python
`sep in s` test); used to state the no-marker fallback property. -/
def occursIn (sep : List Char) : List Char → Bool
  | [] => sep.isEmpty
  | c :: rest => sep.isPrefixOf (c :: rest) || occursIn sep rest

/-- The opening sentinel marker of a model response. -/
def openMarker : List Char := "<response>".data

/-- The closing sentinel marker of a model response. -/
def closeMarker : List Char := "</response>".data

/-- `CRUD_Evaluator.post_process` (eval_crud.py lines 78-79):
`result.split("<response>")[-1].split("</response>")[0].strip()`.
Python `[-1]` on the (always non-empty) split result is `getLastD`,
`[0]` is `headD`. -/
def post_process (result : String) : String :=
  String.mk (pyStrip (((pySplit closeMarker
    ((pySplit openMarker result.data).getLastD [])).headD [])))

/-- A dataset slice (one top-level group of the dataset JSON): an ordered
sequence of records. -/
abbrev Dataset := List Record

/-- The observable steps the `main` driver performs, in order: creating the
output directory, constructing a `CRUD_Evaluator` for a task, ingesting the
document corpus (`CRUD_Evaluator.ingest_docs`), and running
`evaluator.evaluate` for a task. `evaluateTask` stands for the whole
evaluation loop of that task — processing every record of its dataset slice
and persisting the task's output file — whose body (`Evaluator.evaluate`,
not under `src/`) is modelled from the spec as one atomic step. -/
inductive Event where
  | mkOutputDir
  | constructEvaluator (task : String)
  | ingestDocs
  | evaluateTask (task : String)
deriving DecidableEq, Repr

/-- The dataset-slice selection of `main` (eval_crud.py lines 138-146):
`question_answering` reads the `questanswer_1doc` group, `summarization`
reads `event_summary`, anything else raises `NotImplementedError`. -/
def select_dataset (task : String) (all_datasets : List (String × Dataset)) :
    Except PyError Dataset :=
  if task = "question_answering" then dictGet all_datasets "questanswer_1doc"
  else if task = "summarization" then dictGet all_datasets "event_summary"
  else Except.error (PyError.notImplementedError (unknownTaskMsg task))

/-- The `for task in args.tasks` loop of `main` (eval_crud.py lines
137-155): per task, select the dataset slice (an exception aborts the loop
and propagates), construct the evaluator, optionally ingest documents, then
evaluate. Returns the trace of performed events and the exception, if any,
that terminated the loop. -/
def runTasks (all_datasets : List (String × Dataset)) (ingest_docs : Bool) :
    List String → List Event × Option PyError
  | [] => ([], none)
  | task :: rest =>
    match select_dataset task all_datasets with
    | Except.error e => ([], some e)
    | Except.ok _dataset =>
      let taskEvents := Event.constructEvaluator task ::
        ((if ingest_docs then [Event.ingestDocs] else []) ++ [Event.evaluateTask task])
      let r := runTasks all_datasets ingest_docs rest
      (taskEvents ++ r.1, r.2)

/-- The `FileNotFoundError` message of `main`. -/
def datasetMissingMsg (dataset_path : String) : String :=
  "Evaluation dataset file " ++ dataset_path ++ " not exist."

namespace EvalCrud

/-- `main` (eval_crud.py lines 129-155): if the dataset file is missing,
raise `FileNotFoundError` before doing anything else; otherwise read the
dataset (`all_datasets`, modelling `json.load`), create the output
directory, and run the task loop. `dataset_file_exists` models the
`os.path.isfile` test. -/
def main (dataset_path : String) (dataset_file_exists : Bool)
    (all_datasets : List (String × Dataset)) (tasks : List String)
    (ingest_docs : Bool) : List Event × Option PyError :=
  if dataset_file_exists then
    let r := runTasks all_datasets ingest_docs tasks
    (Event.mkOutputDir :: r.1, r.2)
  else
    ([], some (PyError.fileNotFoundError (datasetMissingMsg dataset_path)))

end EvalCrud

/-- Number of document-ingestion steps in a trace. -/
def countIngest (events : List Event) : Nat :=
  events.countP (fun e => e = Event.ingestDocs)

/-! ### Shared concrete inputs for closed witnesses -/

/-- A record carrying every field any task requires. -/
def wRecord : Record :=
  [("text", "T"), ("summary", "S"), ("questions", "Q"), ("news1", "N"),
   ("answers", "A"), ("beginning", "B"), ("continuing", "C"),
   ("newsBeginning", "NB"), ("hallucinatedMod", "H")]

/-- A dataset with both task-keyed groups, one empty record each. -/
def exDatasets : List (String × Dataset) :=
  [("questanswer_1doc", [[]]), ("event_summary", [[]])]

/-! ### Claims -/

/-- C1: for every task in {summarization, question_answering, continuation,
hallucinated_modified} and every record containing that task's required
fields, the three extractors return exactly the task-specific fields:
summarization reads `text`/`text`/`summary`, question_answering reads
`questions`/`news1`/`answers`, continuation reads
`beginning`/`beginning`/`continuing`, hallucinated_modified reads
`newsBeginning`/`newsBeginning`/`hallucinatedMod` (query/document/ground
truth respectively). -/
theorem C1_task_field_extractors (data : Record) :
    (∀ v, data.lookup "text" = some v →
      get_query "summarization" data = Except.ok v ∧
      get_document "summarization" data = Except.ok v) ∧
    (∀ v, data.lookup "summary" = some v →
      get_ground_truth_text "summarization" data = Except.ok v) ∧
    (∀ v, data.lookup "questions" = some v →
      get_query "question_answering" data = Except.ok v) ∧
    (∀ v, data.lookup "news1" = some v →
      get_document "question_answering" data = Except.ok v) ∧
    (∀ v, data.lookup "answers" = some v →
      get_ground_truth_text "question_answering" data = Except.ok v) ∧
    (∀ v, data.lookup "beginning" = some v →
      get_query "continuation" data = Except.ok v ∧
      get_document "continuation" data = Except.ok v) ∧
    (∀ v, data.lookup "continuing" = some v →
      get_ground_truth_text "continuation" data = Except.ok v) ∧
    (∀ v, data.lookup "newsBeginning" = some v →
      get_query "hallucinated_modified" data = Except.ok v ∧
      get_document "hallucinated_modified" data = Except.ok v) ∧
    (∀ v, data.lookup "hallucinatedMod" = some v →
      get_ground_truth_text "hallucinated_modified" data = Except.ok v) := by
  refine ⟨?_, ?_, ?_, ?_, ?_, ?_, ?_, ?_, ?_⟩ <;> intro v hv <;>
    simp [get_query, get_document, get_ground_truth_text, dictGet, hv]

/-- C1 witness: the extractors evaluated on a concrete record. -/
theorem C1_witness :
    get_query "summarization" wRecord = Except.ok "T" ∧
    get_document "summarization" wRecord = Except.ok "T" ∧
    get_ground_truth_text "summarization" wRecord = Except.ok "S" ∧
    get_query "question_answering" wRecord = Except.ok "Q" ∧
    get_document "question_answering" wRecord = Except.ok "N" ∧
    get_ground_truth_text "question_answering" wRecord = Except.ok "A" ∧
    get_query "continuation" wRecord = Except.ok "B" ∧
    get_document "continuation" wRecord = Except.ok "B" ∧
    get_ground_truth_text "continuation" wRecord = Except.ok "C" ∧
    get_query "hallucinated_modified" wRecord = Except.ok "NB" ∧
    get_document "hallucinated_modified" wRecord = Except.ok "NB" ∧
    get_ground_truth_text "hallucinated_modified" wRecord = Except.ok "H" := by
  have h := C1_task_field_extractors wRecord
  exact ⟨(h.1 "T" rfl).1, (h.1 "T" rfl).2, h.2.1 "S" rfl,
    h.2.2.1 "Q" rfl, h.2.2.2.1 "N" rfl, h.2.2.2.2.1 "A" rfl,
    (h.2.2.2.2.2.1 "B" rfl).1, (h.2.2.2.2.2.1 "B" rfl).2,
    h.2.2.2.2.2.2.1 "C" rfl,
    (h.2.2.2.2.2.2.2.1 "NB" rfl).1, (h.2.2.2.2.2.2.2.1 "NB" rfl).2,
    h.2.2.2.2.2.2.2.2 "H" rfl⟩

/-- C2: for any task identifier outside the enumerated set, all three
extractors raise identically: the same exception constructor
(`NotImplementedError`) with the same message, so the three results are
equal to one another. -/
theorem C2_unknown_task_extractors (task : String) (data : Record)
    (h1 : task ≠ "summarization") (h2 : task ≠ "question_answering")
    (h3 : task ≠ "continuation") (h4 : task ≠ "hallucinated_modified") :
    get_query task data =
      Except.error (PyError.notImplementedError (unknownTaskMsg task)) ∧
    get_document task data =
      Except.error (PyError.notImplementedError (unknownTaskMsg task)) ∧
    get_ground_truth_text task data =
      Except.error (PyError.notImplementedError (unknownTaskMsg task)) := by
  simp [get_query, get_document, get_ground_truth_text, h1, h2, h3, h4]

/-- C2 witness: the three extractors on the unknown task `"foo"`. -/
theorem C2_witness :
    get_query "foo" [] =
      Except.error (PyError.notImplementedError (unknownTaskMsg "foo")) ∧
    get_document "foo" [] =
      Except.error (PyError.notImplementedError (unknownTaskMsg "foo")) ∧
    get_ground_truth_text "foo" [] =
      Except.error (PyError.notImplementedError (unknownTaskMsg "foo")) :=
  C2_unknown_task_extractors "foo" [] (by decide) (by decide) (by decide) (by decide)

/-- C3: template selection succeeds exactly on {summarization,
question_answering, continuation}; it raises the unsupported-task error for
`hallucinated_modified` and for any other identifier, even though field
extraction succeeds for `hallucinated_modified` when its field is
present. -/
theorem C3_template_selection (task : String)
    (h1 : task ≠ "summarization") (h2 : task ≠ "question_answering")
    (h3 : task ≠ "continuation") (data : Record) (v : String) :
    get_template "summarization" = Except.ok CRUDTemplate.get_summarization_template ∧
    get_template "question_answering" = Except.ok CRUDTemplate.get_question_answering_template ∧
    get_template "continuation" = Except.ok CRUDTemplate.get_continuation_template ∧
    get_template "hallucinated_modified" =
      Except.error (PyError.notImplementedError (unknownTaskMsg "hallucinated_modified")) ∧
    get_template task =
      Except.error (PyError.notImplementedError (unknownTaskMsg task)) ∧
    (data.lookup "newsBeginning" = some v →
      get_query "hallucinated_modified" data = Except.ok v) := by
  refine ⟨rfl, rfl, rfl, rfl, ?_, ?_⟩
  · simp [get_template, h1, h2, h3]
  · intro hv
    simp [get_query, dictGet, hv]

/-- C3 witness: template selection rejects `hallucinated_modified` while
field extraction accepts it on a concrete record. -/
theorem C3_witness :
    get_template "hallucinated_modified" =
      Except.error (PyError.notImplementedError (unknownTaskMsg "hallucinated_modified")) ∧
    get_query "hallucinated_modified" [("newsBeginning", "NB")] = Except.ok "NB" := by
  have h := C3_template_selection "hallucinated_modified"
    (by decide) (by decide) (by decide) [("newsBeginning", "NB")] "NB"
  exact ⟨h.2.2.2.1, h.2.2.2.2.2 rfl⟩

/-- C4: dataset-slice selection maps `question_answering` to the
`questanswer_1doc` group and `summarization` to `event_summary`; an
unrecognized task raises the unsupported-task error, and the task loop then
performs no step for that task (no evaluator construction, no ingestion, no
evaluation, no output): the trace from that task on is empty and the error
propagates. -/
theorem C4_dataset_slice (all_datasets : List (String × Dataset))
    (qa es : Dataset) (task : String) (ingest_docs : Bool) (rest : List String)
    (hqa : all_datasets.lookup "questanswer_1doc" = some qa)
    (hes : all_datasets.lookup "event_summary" = some es)
    (h1 : task ≠ "question_answering") (h2 : task ≠ "summarization") :
    select_dataset "question_answering" all_datasets = Except.ok qa ∧
    select_dataset "summarization" all_datasets = Except.ok es ∧
    select_dataset task all_datasets =
      Except.error (PyError.notImplementedError (unknownTaskMsg task)) ∧
    runTasks all_datasets ingest_docs (task :: rest) =
      ([], some (PyError.notImplementedError (unknownTaskMsg task))) := by
  refine ⟨?_, ?_, ?_, ?_⟩
  · simp [select_dataset, dictGet, hqa]
  · simp [select_dataset, dictGet, hes]
  · simp [select_dataset, h1, h2]
  · simp [runTasks, select_dataset, h1, h2]

/-- C4 witness: slice selection on a concrete dataset, and the aborted task
loop for the unknown task `"foo"`. -/
theorem C4_witness :
    select_dataset "question_answering" exDatasets = Except.ok [[]] ∧
    select_dataset "summarization" exDatasets = Except.ok [[]] ∧
    select_dataset "foo" exDatasets =
      Except.error (PyError.notImplementedError (unknownTaskMsg "foo")) ∧
    runTasks exDatasets true ["foo", "question_answering"] =
      ([], some (PyError.notImplementedError (unknownTaskMsg "foo"))) :=
  C4_dataset_slice exDatasets [[]] [[]] "foo" true ["question_answering"]
    rfl rfl (by decide) (by decide)

/-- The spec's description of the response post-processor (§4.3), stated in
its own words: split on the opening marker, take the final segment, split
that on the closing marker, take the first segment, strip surrounding
whitespace. -/
def responsePostProcessorSpec (s : String) : String :=
  String.mk (pyStrip (((pySplit closeMarker
    ((pySplit openMarker s.data).getLastD [])).headD [])))

/-- C5: the post-processor computes exactly the
split/take-last/split/take-first/strip pipeline of the spec, and on the
spec's two examples it returns `"ANSWER"`. -/
theorem C5_post_process_pipeline :
    (∀ s : String, post_process s = responsePostProcessorSpec s) ∧
    post_process "noise<response>ANSWER</response>trailing" = "ANSWER" ∧
    post_process "ANSWER</response>" = "ANSWER" :=
  ⟨fun _ => rfl, by decide, by decide⟩

/-- Splitting with fuel on a separator that does not occur in the input
returns the whole input as the single segment, whatever the fuel. -/
theorem pySplitF_of_not_occursIn (sep : List Char) (n : Nat) (s : List Char)
    (h : occursIn sep s = false) : pySplitF sep n s = [s] := by
  induction n generalizing s with
  | zero => cases s <;> rfl
  | succ n ih =>
    cases s with
    | nil => rfl
    | cons c rest =>
      simp only [occursIn, Bool.or_eq_false_iff] at h
      obtain ⟨hp, hr⟩ := h
      simp [pySplitF, hp, ih rest hr]

/-- Splitting on a separator that does not occur in the input returns the
whole input as the single segment. -/
theorem pySplit_of_not_occursIn (sep s : List Char)
    (h : occursIn sep s = false) : pySplit sep s = [s] :=
  pySplitF_of_not_occursIn sep s.length s h

/-- C6: the post-processor is a total function (by construction: split on a
non-empty separator never fails and always yields a non-empty segment
list), and when neither `<response>` nor `</response>` occurs in the input
it returns the whole input stripped of surrounding whitespace. -/
theorem C6_post_process_no_markers (s : String)
    (hopen : occursIn openMarker s.data = false)
    (hclose : occursIn closeMarker s.data = false) :
    post_process s = String.mk (pyStrip s.data) := by
  unfold post_process
  rw [pySplit_of_not_occursIn _ _ hopen]
  simp [pySplit_of_not_occursIn _ _ hclose]

/-- C6 witness: the no-marker fallback on the spec's example input. -/
theorem C6_witness :
    occursIn openMarker "plain text, no markers".data = false ∧
    occursIn closeMarker "plain text, no markers".data = false ∧
    post_process "plain text, no markers" =
      String.mk (pyStrip "plain text, no markers".data) :=
  ⟨by decide, by decide,
    C6_post_process_no_markers "plain text, no markers" (by decide) (by decide)⟩

/-- A list is a starting segment of itself followed by anything. -/
theorem isPrefixOf_append_self (l t : List Char) : l.isPrefixOf (l ++ t) = true := by
  induction l with
  | nil => cases t <;> rfl
  | cons c cs ih => simp [List.isPrefixOf, ih]

/-- The empty pattern occurs in every list. -/
theorem occursIn_nil_left (s : List Char) : occursIn [] s = true := by
  cases s <;> rfl

/-- Occurrence is preserved by prepending. -/
theorem occursIn_append_right (sep pre s : List Char)
    (h : occursIn sep s = true) : occursIn sep (pre ++ s) = true := by
  induction pre with
  | nil => exact h
  | cons c cs ih => simp [occursIn, ih]

/-- A pattern occurs in any list built around it. -/
theorem occursIn_append_self (sep pre post : List Char) :
    occursIn sep (pre ++ sep ++ post) = true := by
  rw [List.append_assoc]
  induction pre with
  | nil =>
    show occursIn sep (sep ++ post) = true
    cases sep with
    | nil => exact occursIn_nil_left post
    | cons c cs =>
      have h := isPrefixOf_append_self (c :: cs) post
      rw [List.cons_append] at h
      simp [occursIn, h]
  | cons c cs ih => simp [occursIn, ih]

/-- The unknown-task message decomposes around the task name. -/
theorem unknownTaskMsg_data (task : String) :
    (unknownTaskMsg task).data =
      "Unknown task ".data ++ task.data ++ supportTail.data := by
  obtain ⟨cs⟩ := task
  rfl

/-- C7 counterexample: the claim fails as stated. Every rejecting operation
uses the one shared message, which always lists all four task names; but
`get_template` rejects `hallucinated_modified` (one of the listed names)
and `select_dataset` rejects `continuation` (another listed name), so for
those operations the message does not list exactly the set of tasks the
rejecting operation supports. -/
theorem C7_counterexample :
    get_template "foo" =
      Except.error (PyError.notImplementedError (unknownTaskMsg "foo")) ∧
    occursIn "hallucinated_modified".data (unknownTaskMsg "foo").data = true ∧
    get_template "hallucinated_modified" =
      Except.error (PyError.notImplementedError (unknownTaskMsg "hallucinated_modified")) ∧
    select_dataset "foo" [] =
      Except.error (PyError.notImplementedError (unknownTaskMsg "foo")) ∧
    occursIn "continuation".data (unknownTaskMsg "foo").data = true ∧
    select_dataset "continuation" [] =
      Except.error (PyError.notImplementedError (unknownTaskMsg "continuation")) :=
  ⟨rfl, by decide, rfl, rfl, by decide, rfl⟩

/-- C7 amended: whenever field extraction, template selection, or
dataset-slice selection rejects a task identifier, the raised error carries
the one shared message, which names the offending task value and lists the
fixed four-task set {summarization, question_answering, continuation,
hallucinated_modified}; for the extractors this is exactly their supported
set, but template selection and dataset-slice selection list a strict
superset of what they support (they reject `hallucinated_modified`,
respectively `continuation` and `hallucinated_modified`, though the message
names them). -/
theorem C7_amended_error_message (task : String) (data : Record)
    (ad : List (String × Dataset))
    (h1 : task ≠ "summarization") (h2 : task ≠ "question_answering")
    (h3 : task ≠ "continuation") (h4 : task ≠ "hallucinated_modified") :
    get_query task data =
      Except.error (PyError.notImplementedError (unknownTaskMsg task)) ∧
    get_document task data =
      Except.error (PyError.notImplementedError (unknownTaskMsg task)) ∧
    get_ground_truth_text task data =
      Except.error (PyError.notImplementedError (unknownTaskMsg task)) ∧
    get_template task =
      Except.error (PyError.notImplementedError (unknownTaskMsg task)) ∧
    select_dataset task ad =
      Except.error (PyError.notImplementedError (unknownTaskMsg task)) ∧
    occursIn task.data (unknownTaskMsg task).data = true ∧
    occursIn "summarization".data (unknownTaskMsg task).data = true ∧
    occursIn "question_answering".data (unknownTaskMsg task).data = true ∧
    occursIn "continuation".data (unknownTaskMsg task).data = true ∧
    occursIn "hallucinated_modified".data (unknownTaskMsg task).data = true ∧
    get_template "hallucinated_modified" =
      Except.error (PyError.notImplementedError (unknownTaskMsg "hallucinated_modified")) ∧
    select_dataset "continuation" ad =
      Except.error (PyError.notImplementedError (unknownTaskMsg "continuation")) ∧
    select_dataset "hallucinated_modified" ad =
      Except.error (PyError.notImplementedError (unknownTaskMsg "hallucinated_modified")) := by
  refine ⟨?_, ?_, ?_, ?_, ?_, ?_, ?_, ?_, ?_, ?_, rfl, ?_, ?_⟩
  · simp [get_query, h1, h2, h3, h4]
  · simp [get_document, h1, h2, h3, h4]
  · simp [get_ground_truth_text, h1, h2, h3, h4]
  · simp [get_template, h1, h2, h3]
  · simp [select_dataset, h1, h2]
  · rw [unknownTaskMsg_data]
    exact occursIn_append_self task.data "Unknown task ".data supportTail.data
  · rw [unknownTaskMsg_data, List.append_assoc]
    exact occursIn_append_right _ "Unknown task ".data _
      (occursIn_append_right _ task.data supportTail.data (by decide))
  · rw [unknownTaskMsg_data, List.append_assoc]
    exact occursIn_append_right _ "Unknown task ".data _
      (occursIn_append_right _ task.data supportTail.data (by decide))
  · rw [unknownTaskMsg_data, List.append_assoc]
    exact occursIn_append_right _ "Unknown task ".data _
      (occursIn_append_right _ task.data supportTail.data (by decide))
  · rw [unknownTaskMsg_data, List.append_assoc]
    exact occursIn_append_right _ "Unknown task ".data _
      (occursIn_append_right _ task.data supportTail.data (by decide))
  · simp [select_dataset]
  · simp [select_dataset]

/-- C7 witness: the amended message property at the unknown task `"foo"`. -/
theorem C7_witness :
    get_query "foo" wRecord =
      Except.error (PyError.notImplementedError (unknownTaskMsg "foo")) ∧
    occursIn "foo".data (unknownTaskMsg "foo").data = true ∧
    occursIn "summarization".data (unknownTaskMsg "foo").data = true := by
  have h := C7_amended_error_message "foo" wRecord exDatasets
    (by decide) (by decide) (by decide) (by decide)
  exact ⟨h.1, h.2.2.2.2.2.1, h.2.2.2.2.2.2.1⟩

/-- C8 counterexample: the claim fails as stated. In a run with
`--ingest_docs` and the two supported tasks, ingestion runs inside the
per-task loop: the trace holds two `ingestDocs` steps, not one, and the
first task's records are evaluated before the second ingestion — so
ingestion is neither once per run nor entirely before record
processing. -/
theorem C8_counterexample :
    EvalCrud.main "path" true exDatasets ["question_answering", "summarization"] true =
      ([Event.mkOutputDir,
        Event.constructEvaluator "question_answering", Event.ingestDocs,
        Event.evaluateTask "question_answering",
        Event.constructEvaluator "summarization", Event.ingestDocs,
        Event.evaluateTask "summarization"], none) ∧
    countIngest (EvalCrud.main "path" true exDatasets
      ["question_answering", "summarization"] true).1 = 2 ∧
    countIngest (EvalCrud.main "path" true exDatasets
      ["question_answering", "summarization"] true).1 ≠ 1 :=
  ⟨rfl, rfl, by decide⟩

/-- C8 amended: when document ingestion is enabled, the `DocumentIngestor`
runs once per task that passes dataset-slice selection — inside the task
loop, after that task's evaluator is constructed and before that task's
records are evaluated —, not once per run: with several tasks it runs once
for each of them. -/
theorem C8_amended_ingest_per_task (all_datasets : List (String × Dataset))
    (task : String) (ds : Dataset) (rest : List String)
    (hsel : select_dataset task all_datasets = Except.ok ds) :
    runTasks all_datasets true (task :: rest) =
      (Event.constructEvaluator task :: Event.ingestDocs ::
        Event.evaluateTask task :: (runTasks all_datasets true rest).1,
       (runTasks all_datasets true rest).2) := by
  simp [runTasks, hsel]

/-- C8 witness: the per-task ingestion step on a concrete run. -/
theorem C8_witness :
    runTasks exDatasets true ["question_answering", "summarization"] =
      (Event.constructEvaluator "question_answering" :: Event.ingestDocs ::
        Event.evaluateTask "question_answering" ::
        (runTasks exDatasets true ["summarization"]).1,
       (runTasks exDatasets true ["summarization"]).2) :=
  C8_amended_ingest_per_task exDatasets "question_answering" [[]]
    ["summarization"] rfl

/-- C9: when the dataset file is missing, `main` raises
`FileNotFoundError` (the spec's `DatasetNotFoundError`) with an empty
trace: no output directory is created and no task is processed. When the
file exists, the very first step of the trace is creating the output
directory, before any task step. -/
theorem C9_dataset_file_check (dataset_path : String)
    (all_datasets : List (String × Dataset)) (tasks : List String)
    (ingest_docs : Bool) :
    EvalCrud.main dataset_path false all_datasets tasks ingest_docs =
      ([], some (PyError.fileNotFoundError (datasetMissingMsg dataset_path))) ∧
    (EvalCrud.main dataset_path true all_datasets tasks ingest_docs).1 =
      Event.mkOutputDir :: (runTasks all_datasets ingest_docs tasks).1 := by
  constructor <;> simp [EvalCrud.main]

/-- If dataset-slice selection rejects `t`, no evaluator is ever
constructed for `t` and `t` is never evaluated, in any task loop: either
the loop reaches `t` and aborts with no further events, or it never
reaches `t`. -/
theorem runTasks_no_events_of_rejected (all_datasets : List (String × Dataset))
    (ingest_docs : Bool) (t : String)
    (hsel : ∀ ds : Dataset, select_dataset t all_datasets ≠ Except.ok ds)
    (tasks : List String) :
    Event.constructEvaluator t ∉ (runTasks all_datasets ingest_docs tasks).1 ∧
    Event.evaluateTask t ∉ (runTasks all_datasets ingest_docs tasks).1 := by
  induction tasks with
  | nil => simp [runTasks]
  | cons task rest ih =>
    cases h : select_dataset task all_datasets with
    | error e => simp [runTasks, h]
    | ok ds =>
      have hne : t ≠ task := by
        rintro rfl
        exact hsel ds h
      cases ingest_docs <;>
        simp_all [runTasks, h, hne]

/-- C10: `continuation` and `hallucinated_modified` are rejected by
dataset-slice selection whatever the dataset, so in every run no evaluator
is constructed for them and they are never evaluated; a run whose first
task is one of them performs nothing beyond creating the output directory
(in particular no ingestion) and aborts with the unsupported-task error —
even though all three field extractors support both tasks and the template
selector supports `continuation`. -/
theorem C10_unreachable_tasks (t : String)
    (ht : t = "continuation" ∨ t = "hallucinated_modified") :
    (∀ all_datasets, select_dataset t all_datasets =
      Except.error (PyError.notImplementedError (unknownTaskMsg t))) ∧
    (∀ dataset_path all_datasets tasks ingest_docs,
      Event.constructEvaluator t ∉
        (EvalCrud.main dataset_path true all_datasets tasks ingest_docs).1 ∧
      Event.evaluateTask t ∉
        (EvalCrud.main dataset_path true all_datasets tasks ingest_docs).1) ∧
    (∀ dataset_path all_datasets ingest_docs,
      EvalCrud.main dataset_path true all_datasets [t] ingest_docs =
        ([Event.mkOutputDir],
         some (PyError.notImplementedError (unknownTaskMsg t)))) ∧
    (∀ (data : Record) v, data.lookup "beginning" = some v →
      get_query "continuation" data = Except.ok v ∧
      get_document "continuation" data = Except.ok v) ∧
    (∀ (data : Record) v, data.lookup "continuing" = some v →
      get_ground_truth_text "continuation" data = Except.ok v) ∧
    (∀ (data : Record) v, data.lookup "newsBeginning" = some v →
      get_query "hallucinated_modified" data = Except.ok v ∧
      get_document "hallucinated_modified" data = Except.ok v) ∧
    (∀ (data : Record) v, data.lookup "hallucinatedMod" = some v →
      get_ground_truth_text "hallucinated_modified" data = Except.ok v) ∧
    get_template "continuation" = Except.ok CRUDTemplate.get_continuation_template := by
  have hsel : ∀ all_datasets, select_dataset t all_datasets =
      Except.error (PyError.notImplementedError (unknownTaskMsg t)) := by
    intro ad
    rcases ht with rfl | rfl <;> simp [select_dataset]
  refine ⟨hsel, ?_, ?_, ?_, ?_, ?_, ?_, rfl⟩
  · intro dataset_path all_datasets tasks ingest_docs
    have h := runTasks_no_events_of_rejected all_datasets ingest_docs t
      (by intro ds hds; rw [hsel all_datasets] at hds; exact absurd hds (by simp)) tasks
    constructor
    · simp [EvalCrud.main, h.1]
    · simp [EvalCrud.main, h.2]
  · intro dataset_path all_datasets ingest_docs
    simp [EvalCrud.main, runTasks, hsel all_datasets]
  · intro data v hv
    simp [get_query, get_document, dictGet, hv]
  · intro data v hv
    simp [get_ground_truth_text, dictGet, hv]
  · intro data v hv
    simp [get_query, get_document, dictGet, hv]
  · intro data v hv
    simp [get_ground_truth_text, dictGet, hv]

/-- C10 witness: the unreachable task `continuation` on concrete runs and
records. -/
theorem C10_witness :
    select_dataset "continuation" exDatasets =
      Except.error (PyError.notImplementedError (unknownTaskMsg "continuation")) ∧
    Event.evaluateTask "continuation" ∉
      (EvalCrud.main "path" true exDatasets ["question_answering"] true).1 ∧
    EvalCrud.main "path" true exDatasets ["continuation"] true =
      ([Event.mkOutputDir],
       some (PyError.notImplementedError (unknownTaskMsg "continuation"))) ∧
    get_query "continuation" [("beginning", "B")] = Except.ok "B" := by
  have h := C10_unreachable_tasks "continuation" (Or.inl rfl)
  exact ⟨h.1 exDatasets,
    (h.2.1 "path" exDatasets ["question_answering"] true).2,
    h.2.2.1 "path" exDatasets true,
    (h.2.2.2.1 [("beginning", "B")] "B" rfl).1⟩
